import Mathlib

/-!
Formal model of the identity-resolution and account-lifecycle handlers of
`handlers.go` (thunderdome-planning-poker). Store, codec, validator-library and
render collaborators are passed in as function parameters; HTTP effects
(status, Set-Cookie operations, outbound emails) are returned explicitly.
-/

/-- Server configuration fields used by the cookie helpers
(`s.config.SecureCookieName`, `s.config.FrontendCookieName`). -/
structure ServerConfig where
  secureCookieName : String
  frontendCookieName : String
deriving DecidableEq

/-- An emitted Set-Cookie operation (name, value, MaxAge). `maxAge = -1`
deletes the cookie. -/
structure SetCookieOp where
  name : String
  value : String
  maxAge : Int
deriving DecidableEq

/-- Embeds `clearWarriorCookies` (handlers.go lines 110-130): wipes the
frontend and the backend cookie by emitting both with empty value and
`MaxAge: -1`. -/
def clearWarriorCookies (cfg : ServerConfig) : List SetCookieOp :=
  [⟨cfg.frontendCookieName, "", -1⟩, ⟨cfg.secureCookieName, "", -1⟩]

/-- Embeds `validateWarriorCookie` (handlers.go lines 133-152). `decode` is
the secure-cookie codec `s.cookie.Decode` (an error is `none`); `cookie` is
the raw backend cookie value, `none` when the request has no such cookie.
Returns the resolved warrior ID (or `none` on failure) together with the
Set-Cookie operations written to the response. -/
def validateWarriorCookie (cfg : ServerConfig) (decode : String → Option String)
    (cookie : Option String) : Option String × List SetCookieOp :=
  match cookie with
  | some v =>
    match decode v with
    | some value => (some value, [])
    | none => (none, clearWarriorCookies cfg)
  | none => (none, clearWarriorCookies cfg)

/-- The credential-bearing part of a request: `apiKeyHeader` is the result of
`r.Header.Get("X-API-Key")` (the empty string when the header is absent, since
Go's `Header.Get` collapses the two cases), and `cookie` is the raw backend
session cookie value when present. -/
structure AuthRequest where
  apiKeyHeader : String
  cookie : Option String
deriving DecidableEq

/-- Outcome of the shared credential-resolution block. -/
inductive ResolveResult where
  | viaKey : String → ResolveResult
  | viaCookie : String → ResolveResult
  | keyFail : ResolveResult
  | cookieFail : ResolveResult
deriving DecidableEq

/-- Models Go's `unicode.IsSpace`: in the Latin-1 range the characters
`'\t'`..`'\r'`, space, U+0085 (NEL) and U+00A0 (NBSP); beyond it the Unicode
White_Space property code points U+1680, U+2000..U+200A, U+2028, U+2029,
U+202F, U+205F and U+3000. -/
def isGoSpace (c : Char) : Bool :=
  let n := c.toNat
  (n == 0x20) || (decide (0x9 ≤ n) && decide (n ≤ 0xD)) || (n == 0x85) ||
  (n == 0xA0) || (n == 0x1680) || (decide (0x2000 ≤ n) && decide (n ≤ 0x200A)) ||
  (n == 0x2028) || (n == 0x2029) || (n == 0x202F) || (n == 0x205F) || (n == 0x3000)

/-- Models Go's `strings.TrimSpace`: drop leading and trailing characters
satisfying `unicode.IsSpace`. Defined over the character list so it evaluates
in the kernel. -/
def trimSpace (s : String) : String :=
  ⟨((s.data.dropWhile isGoSpace).reverse.dropWhile isGoSpace).reverse⟩

/-- Embeds the credential-resolution block shared verbatim by `adminOnly`
(handlers.go lines 161-180) and `warriorOnly` (lines 197-216): read the
`X-API-Key` header, trim whitespace; when the trimmed value is non-empty,
resolve only through `validateAPIKey` (store lookup, error is `none`),
otherwise fall back to `validateWarriorCookie`. -/
def resolveWarriorID (cfg : ServerConfig) (validateAPIKey decode : String → Option String)
    (r : AuthRequest) : ResolveResult :=
  let apiKey := trimSpace r.apiKeyHeader
  if apiKey != "" then
    match validateAPIKey apiKey with
    | some id => ResolveResult.viaKey id
    | none => ResolveResult.keyFail
  else
    match validateWarriorCookie cfg decode r.cookie with
    | (some id, _) => ResolveResult.viaCookie id
    | (none, _) => ResolveResult.cookieFail

/-- Outcome of a gate middleware: either the request is rejected with an HTTP
status (together with the Set-Cookie operations emitted), or the wrapped
handler is invoked with the resolved warrior ID bound into context. -/
inductive GateOutcome where
  | reject : Nat → List SetCookieOp → GateOutcome
  | invoke : String → GateOutcome
deriving DecidableEq

/-- Embeds `warriorOnly` (handlers.go lines 195-230): resolve credentials,
then fetch the full warrior record via `getWarrior` (`s.database.GetWarrior`);
on fetch failure clear both cookies and reject with 401; otherwise invoke the
wrapped handler. -/
def warriorOnly {W : Type} (cfg : ServerConfig) (validateAPIKey decode : String → Option String)
    (getWarrior : String → Option W) (r : AuthRequest) : GateOutcome :=
  match resolveWarriorID cfg validateAPIKey decode r with
  | ResolveResult.keyFail => GateOutcome.reject 401 []
  | ResolveResult.cookieFail => GateOutcome.reject 401 (clearWarriorCookies cfg)
  | ResolveResult.viaKey id =>
    match getWarrior id with
    | some _ => GateOutcome.invoke id
    | none => GateOutcome.reject 401 (clearWarriorCookies cfg)
  | ResolveResult.viaCookie id =>
    match getWarrior id with
    | some _ => GateOutcome.invoke id
    | none => GateOutcome.reject 401 (clearWarriorCookies cfg)

/-- Embeds `adminOnly` (handlers.go lines 159-192): resolve credentials, then
check the lightweight admin predicate `confirmAdmin` (`s.database.ConfirmAdmin`,
`true` means no error); on failure reject with 401 without touching cookies. -/
def adminOnly (cfg : ServerConfig) (validateAPIKey decode : String → Option String)
    (confirmAdmin : String → Bool) (r : AuthRequest) : GateOutcome :=
  match resolveWarriorID cfg validateAPIKey decode r with
  | ResolveResult.keyFail => GateOutcome.reject 401 []
  | ResolveResult.cookieFail => GateOutcome.reject 401 (clearWarriorCookies cfg)
  | ResolveResult.viaKey id =>
    if confirmAdmin id then GateOutcome.invoke id else GateOutcome.reject 401 []
  | ResolveResult.viaCookie id =>
    if confirmAdmin id then GateOutcome.invoke id else GateOutcome.reject 401 []

/-- C1 counterexample: a whitespace-only `X-API-Key` header is present and
non-empty, yet the code trims it to empty and resolves via the cookie, so
credential resolution does not go through API-key lookup only. -/
theorem resolve_apikey_claim_counterexample :
    "   " ≠ "" ∧
    resolveWarriorID ⟨"sc", "fc"⟩ (fun _ => none) (fun _ => some "w1")
      ⟨"   ", some "c"⟩ = ResolveResult.viaCookie "w1" := by
  exact ⟨by decide, rfl⟩

/-- C1 (amended): for every request whose API-key header is non-empty after
trimming whitespace, credential resolution goes through API-key lookup only:
the result is fully determined by `validateAPIKey` at the trimmed header (so
cookie decoding is never attempted), and on lookup failure both gates reject
the request with 401 even when a valid cookie is present. -/
theorem resolve_apikey_no_fallback {W : Type} (cfg : ServerConfig)
    (vk dec : String → Option String) (getW : String → Option W)
    (ca : String → Bool) (r : AuthRequest) (h : trimSpace r.apiKeyHeader ≠ "") :
    resolveWarriorID cfg vk dec r =
      (match vk (trimSpace r.apiKeyHeader) with
       | some id => ResolveResult.viaKey id
       | none => ResolveResult.keyFail) ∧
    (vk (trimSpace r.apiKeyHeader) = none →
      warriorOnly cfg vk dec getW r = GateOutcome.reject 401 [] ∧
      adminOnly cfg vk dec ca r = GateOutcome.reject 401 []) := by
  have hb : (trimSpace r.apiKeyHeader != "") = true := by
    simpa [bne_iff_ne] using h
  constructor
  · simp only [resolveWarriorID, hb, if_true]
  · intro hvk
    simp only [warriorOnly, adminOnly, resolveWarriorID, hb, if_true, hvk]
    exact ⟨by trivial, by trivial⟩

/-- C1 witness: concrete request with header "k1" and a decodable cookie;
the failing API-key lookup rejects the request at both gates. -/
theorem resolve_apikey_no_fallback_witness :
    warriorOnly (W := Unit) ⟨"sc", "fc"⟩ (fun _ => none) (fun _ => some "w1")
      (fun _ => some ()) ⟨"k1", some "c"⟩ = GateOutcome.reject 401 [] ∧
    adminOnly ⟨"sc", "fc"⟩ (fun _ => none) (fun _ => some "w1")
      (fun _ => true) ⟨"k1", some "c"⟩ = GateOutcome.reject 401 [] :=
  (resolve_apikey_no_fallback (W := Unit) ⟨"sc", "fc"⟩ (fun _ => none)
    (fun _ => some "w1") (fun _ => some ()) (fun _ => true)
    ⟨"k1", some "c"⟩ (by decide)).2 rfl

/-- C2: without an API-key header (trimmed header empty), a request whose
session cookie is absent or fails to decode never resolves to any member ID:
`validateWarriorCookie` yields no ID and clears both the frontend and the
backend cookie, resolution reports `cookieFail`, and the member gate rejects
the request with 401. -/
theorem cookie_failure_never_resolves {W : Type} (cfg : ServerConfig)
    (vk dec : String → Option String) (getW : String → Option W) (r : AuthRequest)
    (h1 : trimSpace r.apiKeyHeader = "")
    (h2 : ∀ v, r.cookie = some v → dec v = none) :
    validateWarriorCookie cfg dec r.cookie = (none, clearWarriorCookies cfg) ∧
    resolveWarriorID cfg vk dec r = ResolveResult.cookieFail ∧
    warriorOnly cfg vk dec getW r = GateOutcome.reject 401 (clearWarriorCookies cfg) ∧
    (clearWarriorCookies cfg).map SetCookieOp.name =
      [cfg.frontendCookieName, cfg.secureCookieName] ∧
    ∀ op ∈ clearWarriorCookies cfg, op.maxAge = -1 := by
  have hb : (trimSpace r.apiKeyHeader != "") = false := by
    simp [h1]
  have hv : validateWarriorCookie cfg dec r.cookie = (none, clearWarriorCookies cfg) := by
    cases hc : r.cookie with
    | none => rfl
    | some v => simp [validateWarriorCookie, h2 v hc]
  have hr : resolveWarriorID cfg vk dec r = ResolveResult.cookieFail := by
    simp only [resolveWarriorID, hb, Bool.false_eq_true, if_false, hv]
  refine ⟨hv, hr, ?_, rfl, ?_⟩
  · simp only [warriorOnly, hr]
  · intro op hop
    simp only [clearWarriorCookies, List.mem_cons, List.mem_singleton] at hop
    rcases hop with h | h | h
    · rw [h]
    · rw [h]
    · cases h

/-- C2 witness: concrete request with no API-key header and an undecodable
cookie value. -/
theorem cookie_failure_never_resolves_witness :
    validateWarriorCookie ⟨"sc", "fc"⟩ (fun _ => none) (some "bad") =
      (none, clearWarriorCookies ⟨"sc", "fc"⟩) ∧
    resolveWarriorID ⟨"sc", "fc"⟩ (fun _ => some "a") (fun _ => none)
      ⟨"", some "bad"⟩ = ResolveResult.cookieFail :=
  ⟨(cookie_failure_never_resolves (W := Unit) ⟨"sc", "fc"⟩ (fun _ => some "a")
      (fun _ => none) (fun _ => some ()) ⟨"", some "bad"⟩ (by decide)
      (fun _ _ => rfl)).1,
   (cookie_failure_never_resolves (W := Unit) ⟨"sc", "fc"⟩ (fun _ => some "a")
      (fun _ => none) (fun _ => some ()) ⟨"", some "bad"⟩ (by decide)
      (fun _ _ => rfl)).2.1⟩

/-- C7: the wrapped handler behind the member gate runs only when credential
resolution succeeded and the resolved ID still has a backing warrior record;
on resolution failure either gate rejects with 401 before the handler, and when
the record fetch fails the member gate clears both cookies and rejects with
401 without invoking the handler. -/
theorem member_gate_runs_handler_only_after_checks {W : Type} (cfg : ServerConfig)
    (vk dec : String → Option String) (getW : String → Option W)
    (ca : String → Bool) (r : AuthRequest) :
    (∀ id, warriorOnly cfg vk dec getW r = GateOutcome.invoke id →
      (resolveWarriorID cfg vk dec r = ResolveResult.viaKey id ∨
        resolveWarriorID cfg vk dec r = ResolveResult.viaCookie id) ∧
      (getW id).isSome = true) ∧
    (resolveWarriorID cfg vk dec r = ResolveResult.keyFail →
      warriorOnly cfg vk dec getW r = GateOutcome.reject 401 [] ∧
      adminOnly cfg vk dec ca r = GateOutcome.reject 401 []) ∧
    (resolveWarriorID cfg vk dec r = ResolveResult.cookieFail →
      warriorOnly cfg vk dec getW r = GateOutcome.reject 401 (clearWarriorCookies cfg) ∧
      adminOnly cfg vk dec ca r = GateOutcome.reject 401 (clearWarriorCookies cfg)) ∧
    (∀ id, (resolveWarriorID cfg vk dec r = ResolveResult.viaKey id ∨
        resolveWarriorID cfg vk dec r = ResolveResult.viaCookie id) →
      getW id = none →
      warriorOnly cfg vk dec getW r = GateOutcome.reject 401 (clearWarriorCookies cfg)) := by
  refine ⟨?_, ?_, ?_, ?_⟩
  · intro id hinv
    cases hres : resolveWarriorID cfg vk dec r with
    | viaKey i =>
      cases hg : getW i with
      | some wrec =>
        simp only [warriorOnly, hres, hg] at hinv
        cases hinv
        exact ⟨Or.inl rfl, by rw [hg]; rfl⟩
      | none => simp [warriorOnly, hres, hg] at hinv
    | viaCookie i =>
      cases hg : getW i with
      | some wrec =>
        simp only [warriorOnly, hres, hg] at hinv
        cases hinv
        exact ⟨Or.inr rfl, by rw [hg]; rfl⟩
      | none => simp [warriorOnly, hres, hg] at hinv
    | keyFail => simp [warriorOnly, hres] at hinv
    | cookieFail => simp [warriorOnly, hres] at hinv
  · intro hres
    exact ⟨by simp [warriorOnly, hres], by simp [adminOnly, hres]⟩
  · intro hres
    exact ⟨by simp [warriorOnly, hres], by simp [adminOnly, hres]⟩
  · intro id hres hg
    rcases hres with hres | hres
    · simp [warriorOnly, hres, hg]
    · simp [warriorOnly, hres, hg]

/-- C7 witness: a request resolving via cookie to an ID with no backing record
is rejected with 401 and both cookies cleared. -/
theorem member_gate_runs_handler_only_after_checks_witness :
    warriorOnly (W := Unit) ⟨"sc", "fc"⟩ (fun _ => none) (fun _ => some "gone")
      (fun _ => none) ⟨"", some "c"⟩ =
      GateOutcome.reject 401 (clearWarriorCookies ⟨"sc", "fc"⟩) :=
  (member_gate_runs_handler_only_after_checks (W := Unit) ⟨"sc", "fc"⟩
    (fun _ => none) (fun _ => some "gone") (fun _ => none) (fun _ => true)
    ⟨"", some "c"⟩).2.2.2 "gone" (Or.inr rfl) rfl

/-- An HTTP response as observed by the caller: status code and body. An empty
body models a handler that writes no payload. -/
structure HttpResponse where
  status : Nat
  body : String
deriving DecidableEq

/-- An outbound email operation handed to the email collaborator, recording
which send method was called and with which arguments. -/
structure EmailSend where
  kind : String
  toName : String
  toEmail : String
  tokenID : String
deriving DecidableEq

/-- Models reading key `k` from a Go `map[string]string` populated by
`json.Unmarshal`: a missing key yields the zero value `""`. -/
def bodyStr (body : List (String × String)) (k : String) : String :=
  (body.lookup k).getD ""

/-- Embeds `handleForgotPassword` (handlers.go lines 451-467).
`warriorResetRequest` is `s.database.WarriorResetRequest`: `some (resetID,
name)` when the email matches a member (a reset token was issued), `none`
otherwise. The handler sends the reset email only on a match and always
answers 200 with no body. -/
def handleForgotPassword (warriorResetRequest : String → Option (String × String))
    (body : List (String × String)) : HttpResponse × Option EmailSend :=
  let warriorEmail := bodyStr body "warriorEmail"
  match warriorResetRequest warriorEmail with
  | some (resetID, warriorName) =>
    (⟨200, ""⟩, some ⟨"forgotPassword", warriorName, warriorEmail, resetID⟩)
  | none => (⟨200, ""⟩, none)

/-- C3: `handleForgotPassword` returns status 200 with an identical (empty)
body whether or not the email matches a member — the response component is the
same function value for any two store behaviours — and the reset email side
effect occurs exactly when the store lookup matches. -/
theorem forgot_password_anti_enumeration
    (rr1 rr2 : String → Option (String × String)) (body : List (String × String)) :
    (handleForgotPassword rr1 body).1 = (handleForgotPassword rr2 body).1 ∧
    (handleForgotPassword rr1 body).1 = ⟨200, ""⟩ ∧
    ((handleForgotPassword rr1 body).2.isSome ↔
      (rr1 (bodyStr body "warriorEmail")).isSome) := by
  refine ⟨?_, ?_, ?_⟩
  · cases h1 : rr1 (bodyStr body "warriorEmail") with
    | some p =>
      cases h2 : rr2 (bodyStr body "warriorEmail") with
      | some q =>
        cases p; cases q
        simp [handleForgotPassword, h1, h2]
      | none => cases p; simp [handleForgotPassword, h1, h2]
    | none =>
      cases h2 : rr2 (bodyStr body "warriorEmail") with
      | some q => cases q; simp [handleForgotPassword, h1, h2]
      | none => simp [handleForgotPassword, h1, h2]
  · cases h1 : rr1 (bodyStr body "warriorEmail") with
    | some p => cases p; simp [handleForgotPassword, h1]
    | none => simp [handleForgotPassword, h1]
  · cases h1 : rr1 (bodyStr body "warriorEmail") with
    | some p => cases p; simp [handleForgotPassword, h1]
    | none => simp [handleForgotPassword, h1]

/-- Embeds `ValidateWarriorPassword` (handlers.go lines 61-70): the validator
tags `required,min=6,max=72` on both passwords and `eqfield=Password1` on the
second; `min=6` subsumes `required`. Returns the first password and whether
validation passed. -/
def ValidateWarriorPassword (pwd1 pwd2 : String) : String × Bool :=
  (pwd1,
    decide (6 ≤ pwd1.length) && decide (pwd1.length ≤ 72) &&
    (decide (6 ≤ pwd2.length) && decide (pwd2.length ≤ 72) && (pwd2 == pwd1)))

/-- Embeds `handleResetPassword` (handlers.go lines 470-499) over an abstract
reset-token store state `σ`. `warriorResetPassword` is
`s.database.WarriorResetPassword`: it consumes the token and rewrites the
credential, returning the member's name and email (or `none` on failure)
together with the successor store state. On validation failure the handler
answers 400 before any store interaction. -/
def handleResetPassword {σ : Type}
    (warriorResetPassword : String → String → σ → Option (String × String) × σ)
    (body : List (String × String)) (st : σ) : HttpResponse × σ × Option EmailSend :=
  let resetID := bodyStr body "resetId"
  match ValidateWarriorPassword (bodyStr body "warriorPassword1")
      (bodyStr body "warriorPassword2") with
  | (warriorPassword, true) =>
    match warriorResetPassword resetID warriorPassword st with
    | (some (warriorName, warriorEmail), st2) =>
      (⟨200, ""⟩, st2, some ⟨"passwordReset", warriorName, warriorEmail, ""⟩)
    | (none, st2) => (⟨500, ""⟩, st2, none)
  | (_, false) => (⟨400, ""⟩, st, none)

/-- C4: when the two supplied passwords differ or the first violates the
length rule, `handleResetPassword` answers 400, leaves the store state exactly
as it was (the reset token is not consumed), sends no email, and its result
does not depend on the store operation at all. -/
theorem reset_password_mismatch_keeps_token {σ : Type}
    (wrp : String → String → σ → Option (String × String) × σ)
    (body : List (String × String)) (st : σ)
    (h : bodyStr body "warriorPassword2" ≠ bodyStr body "warriorPassword1" ∨
      (bodyStr body "warriorPassword1").length < 6 ∨
      72 < (bodyStr body "warriorPassword1").length) :
    handleResetPassword wrp body st = (⟨400, ""⟩, st, none) ∧
    ∀ wrp2 : String → String → σ → Option (String × String) × σ,
      handleResetPassword wrp body st = handleResetPassword wrp2 body st := by
  have hv : (ValidateWarriorPassword (bodyStr body "warriorPassword1")
      (bodyStr body "warriorPassword2")).2 = false := by
    rcases h with h | h | h
    · simp [ValidateWarriorPassword, h]
    · simp [ValidateWarriorPassword, Nat.not_le.mpr h]
    · simp [ValidateWarriorPassword]
      intro _ h2
      omega
  have hgen : ∀ w2 : String → String → σ → Option (String × String) × σ,
      handleResetPassword w2 body st = (⟨400, ""⟩, st, none) := by
    intro w2
    unfold handleResetPassword
    rcases hval : ValidateWarriorPassword (bodyStr body "warriorPassword1")
      (bodyStr body "warriorPassword2") with ⟨p, b⟩
    rw [hval] at hv
    simp at hv
    rw [hv]
  exact ⟨hgen wrp, fun w2 => by rw [hgen wrp, hgen w2]⟩

/-- C4 witness: differing six-character passwords are rejected with 400 and an
unchanged store (modelled as a counter that any store call would bump). -/
theorem reset_password_mismatch_keeps_token_witness :
    handleResetPassword (fun _ _ s => (none, s + 1))
      [("resetId", "t1"), ("warriorPassword1", "abcdef"), ("warriorPassword2", "abcdeg")]
      (0 : Nat) = (⟨400, ""⟩, 0, none) :=
  (reset_password_mismatch_keeps_token (fun _ _ s => (none, s + 1))
    [("resetId", "t1"), ("warriorPassword1", "abcdef"), ("warriorPassword2", "abcdeg")]
    0 (Or.inl (by decide))).1

/-- State of the verification-token store: pending tokens (token ID paired
with the member it verifies) and the set of verified member IDs. -/
structure VerifyStore where
  pendingTokens : List (String × String)
  verified : List String
deriving DecidableEq

/-- Modelled from the spec: `s.database.VerifyWarriorAccount` is store code
absent from src/. Per spec section 4.4 and section 3, consuming a verification
token is single-use: a pending token is invalidated and the member marked
verified; an unknown or already-consumed token deterministically fails. -/
def VerifyWarriorAccount (st : VerifyStore) (tokenID : String) : Option VerifyStore :=
  match st.pendingTokens.lookup tokenID with
  | some mid =>
    some ⟨st.pendingTokens.filter (fun p => p.1 != tokenID), mid :: st.verified⟩
  | none => none

/-- Embeds `handleAccountVerification` (handlers.go lines 596-613): read
`verifyId` from the body, call the store's verify operation; an error answers
500, success answers 200 with no body. -/
def handleAccountVerification (st : VerifyStore) (body : List (String × String)) :
    HttpResponse × VerifyStore :=
  let verifyID := bodyStr body "verifyId"
  match VerifyWarriorAccount st verifyID with
  | some st2 => (⟨200, ""⟩, st2)
  | none => (⟨500, ""⟩, st)

/-- Looking up a key in a list purged of that key finds nothing. -/
theorem lookup_filter_ne_self (l : List (String × String)) (k : String) :
    (l.filter (fun p => p.1 != k)).lookup k = none := by
  induction l with
  | nil => rfl
  | cons hd tl ih =>
    by_cases hk : hd.1 = k
    · simp [List.filter, hk, ih]
    · have : (hd.1 != k) = true := by simp [bne_iff_ne, hk]
      simp only [List.filter, this]
      rw [List.lookup]
      have : (k == hd.1) = false := by
        simp [BEq.comm]
        exact fun he => hk he.symm
      rw [this]
      exact ih

/-- C5: a pending verification token is consumed exactly once. The first call
answers 200, marks the member verified and removes the token; a second call
with the same token on the resulting state answers 500 and changes nothing;
and a call with a token that is not pending (unknown or consumed) answers 500
and changes nothing rather than silently succeeding. -/
theorem verify_token_single_use (st : VerifyStore) (tokenID mid : String)
    (h : st.pendingTokens.lookup tokenID = some mid) :
    (∃ st2, handleAccountVerification st [("verifyId", tokenID)] = (⟨200, ""⟩, st2) ∧
      mid ∈ st2.verified ∧
      st2.pendingTokens.lookup tokenID = none ∧
      handleAccountVerification st2 [("verifyId", tokenID)] = (⟨500, ""⟩, st2)) ∧
    ∀ st0 : VerifyStore, st0.pendingTokens.lookup tokenID = none →
      handleAccountVerification st0 [("verifyId", tokenID)] = (⟨500, ""⟩, st0) := by
  have hbody : bodyStr [("verifyId", tokenID)] "verifyId" = tokenID := by
    simp [bodyStr]
  have hfail : ∀ st0 : VerifyStore, st0.pendingTokens.lookup tokenID = none →
      handleAccountVerification st0 [("verifyId", tokenID)] = (⟨500, ""⟩, st0) := by
    intro st0 h0
    simp [handleAccountVerification, hbody, VerifyWarriorAccount, h0]
  refine ⟨⟨⟨st.pendingTokens.filter (fun p => p.1 != tokenID), mid :: st.verified⟩,
    ?_, ?_, ?_, ?_⟩, hfail⟩
  · simp [handleAccountVerification, hbody, VerifyWarriorAccount, h]
  · exact List.mem_cons_self mid _
  · exact lookup_filter_ne_self st.pendingTokens tokenID
  · exact hfail _ (lookup_filter_ne_self st.pendingTokens tokenID)

/-- C5 witness: a store holding the single pending token "t1" for member "m1";
the first verification succeeds and the retry fails. -/
theorem verify_token_single_use_witness :
    handleAccountVerification ⟨[("t1", "m1")], []⟩ [("verifyId", "t1")] =
      (⟨200, ""⟩, ⟨[], ["m1"]⟩) ∧
    handleAccountVerification ⟨[], ["m1"]⟩ [("verifyId", "t1")] =
      (⟨500, ""⟩, ⟨[], ["m1"]⟩) := by
  obtain ⟨⟨st2, h200, _, _, _⟩, hfail⟩ :=
    verify_token_single_use ⟨[("t1", "m1")], []⟩ "t1" "m1" (by decide)
  have hst2 : st2 = ⟨[], ["m1"]⟩ := by
    have := h200
    simp only [handleAccountVerification, bodyStr, VerifyWarriorAccount] at this
    cases this
    decide
  exact ⟨by rw [← hst2]; exact h200, hfail ⟨[], ["m1"]⟩ (by decide)⟩

/-- Embeds `ValidateWarriorAccount` (handlers.go lines 47-58): validator tags
`required` on the name, `required,email` on the email, `required,min=6,max=72`
on both passwords and `eqfield=Password1` on the second. `emailOk` abstracts
the validator library's RFC email-shape check (an external collaborator).
Returns name, email, first password and whether validation passed. -/
def ValidateWarriorAccount (emailOk : String → Bool)
    (name email pwd1 pwd2 : String) : String × String × String × Bool :=
  (name, email, pwd1,
    (name != "") && ((email != "") && emailOk email) &&
    (decide (6 ≤ pwd1.length) && decide (pwd1.length ≤ 72)) &&
    (decide (6 ≤ pwd2.length) && decide (pwd2.length ≤ 72) && (pwd2 == pwd1)))

/-- Embeds `handleWarriorEnlist` (handlers.go lines 406-448) over an abstract
member-store state `σ`. `createCorporal` is `s.database.CreateWarriorCorporal`
returning the created warrior record and verification token ID (or `none` on
store failure) with the successor state. Gates in source order: registration
feature flag, JSON parse, account validation; only then is the store touched,
the session cookie created, and the welcome email sent. The cookie of an
already-active session is read with its error discarded (line 422), so a
failed read contributes the empty ID. -/
def handleWarriorEnlist {σ W : Type} (allowRegistration : Bool)
    (emailOk : String → Bool) (cfg : ServerConfig) (decode : String → Option String)
    (createCorporal : String → String → String → String → σ → Option (W × String) × σ)
    (jsonOk : Bool) (body : List (String × String)) (cookie : Option String)
    (st : σ) : HttpResponse × σ × Option EmailSend :=
  if !allowRegistration then (⟨400, ""⟩, st, none)
  else if !jsonOk then (⟨400, ""⟩, st, none)
  else
    let activeWarriorID := ((validateWarriorCookie cfg decode cookie).1).getD ""
    match ValidateWarriorAccount emailOk (bodyStr body "warriorName")
        (bodyStr body "warriorEmail") (bodyStr body "warriorPassword1")
        (bodyStr body "warriorPassword2") with
    | (warriorName, warriorEmail, warriorPassword, true) =>
      match createCorporal warriorName warriorEmail warriorPassword activeWarriorID st with
      | (some (_, verifyID), st2) =>
        (⟨200, "warrior"⟩, st2, some ⟨"welcome", warriorName, warriorEmail, verifyID⟩)
      | (none, st2) => (⟨500, ""⟩, st2, none)
    | (_, _, _, false) => (⟨400, ""⟩, st, none)

/-- C6: registration validation characterised. The validator passes exactly
when the name is non-empty, the email is present and shape-valid, both
password lengths lie in [6,72] and the passwords agree; when it fails the
handler answers 400 with the store state untouched and independent of the
store's create operation (no member record is created); and a 200 response is
only produced when the flag, the JSON parse and every validation rule held. -/
theorem enlist_validation_gate {σ W : Type} (ar : Bool) (emailOk : String → Bool)
    (cfg : ServerConfig) (dec : String → Option String)
    (cc : String → String → String → String → σ → Option (W × String) × σ)
    (jsonOk : Bool) (body : List (String × String)) (cookie : Option String) (st : σ) :
    ((ValidateWarriorAccount emailOk (bodyStr body "warriorName")
        (bodyStr body "warriorEmail") (bodyStr body "warriorPassword1")
        (bodyStr body "warriorPassword2")).2.2.2 = true ↔
      (bodyStr body "warriorName" ≠ "" ∧ bodyStr body "warriorEmail" ≠ "" ∧
        emailOk (bodyStr body "warriorEmail") = true ∧
        6 ≤ (bodyStr body "warriorPassword1").length ∧
        (bodyStr body "warriorPassword1").length ≤ 72 ∧
        6 ≤ (bodyStr body "warriorPassword2").length ∧
        (bodyStr body "warriorPassword2").length ≤ 72 ∧
        bodyStr body "warriorPassword2" = bodyStr body "warriorPassword1")) ∧
    ((ValidateWarriorAccount emailOk (bodyStr body "warriorName")
        (bodyStr body "warriorEmail") (bodyStr body "warriorPassword1")
        (bodyStr body "warriorPassword2")).2.2.2 = false →
      handleWarriorEnlist ar emailOk cfg dec cc jsonOk body cookie st =
        (⟨400, ""⟩, st, none) ∧
      ∀ cc2 : String → String → String → String → σ → Option (W × String) × σ,
        handleWarriorEnlist ar emailOk cfg dec cc jsonOk body cookie st =
          handleWarriorEnlist ar emailOk cfg dec cc2 jsonOk body cookie st) ∧
    ((handleWarriorEnlist ar emailOk cfg dec cc jsonOk body cookie st).1.status = 200 →
      ar = true ∧ jsonOk = true ∧
      (ValidateWarriorAccount emailOk (bodyStr body "warriorName")
        (bodyStr body "warriorEmail") (bodyStr body "warriorPassword1")
        (bodyStr body "warriorPassword2")).2.2.2 = true) := by
  refine ⟨?_, ?_, ?_⟩
  · simp only [ValidateWarriorAccount, Bool.and_eq_true, decide_eq_true_eq,
      bne_iff_ne, ne_eq, beq_iff_eq]
    tauto
  · intro hv
    have hgen : ∀ c2 : String → String → String → String → σ → Option (W × String) × σ,
        handleWarriorEnlist ar emailOk cfg dec c2 jsonOk body cookie st =
          (⟨400, ""⟩, st, none) := by
      intro c2
      unfold handleWarriorEnlist
      cases ar with
      | false => rfl
      | true =>
        cases jsonOk with
        | false => rfl
        | true =>
          simp only [Bool.not_true, Bool.false_eq_true, if_false]
          rcases hval : ValidateWarriorAccount emailOk (bodyStr body "warriorName")
            (bodyStr body "warriorEmail") (bodyStr body "warriorPassword1")
            (bodyStr body "warriorPassword2") with ⟨n2, e2, p2, b2⟩
          rw [hval] at hv
          simp only at hv
          rw [hv]
    refine ⟨hgen cc, fun cc2 => ?_⟩
    rw [hgen cc, hgen cc2]
  · intro h200
    unfold handleWarriorEnlist at h200
    cases ar with
    | false => simp at h200
    | true =>
      cases jsonOk with
      | false => simp at h200
      | true =>
        refine ⟨rfl, rfl, ?_⟩
        simp only [Bool.not_true, Bool.false_eq_true, if_false] at h200
        rcases hval : ValidateWarriorAccount emailOk (bodyStr body "warriorName")
          (bodyStr body "warriorEmail") (bodyStr body "warriorPassword1")
          (bodyStr body "warriorPassword2") with ⟨n2, e2, p2, b2⟩
        rw [hval] at h200
        cases b2 with
        | true => rfl
        | false => simp at h200

/-- C6 witness: a five-character password is rejected with 400 and no member
record is created (store modelled as a counter any create would bump). -/
theorem enlist_validation_gate_witness :
    handleWarriorEnlist (σ := Nat) (W := Unit) true (fun _ => true) ⟨"sc", "fc"⟩
      (fun _ => none) (fun _ _ _ _ s => (some ((), "v1"), s + 1)) true
      [("warriorName", "Ada"), ("warriorEmail", "a@x.com"),
       ("warriorPassword1", "abcde"), ("warriorPassword2", "abcde")]
      none 0 = (⟨400, ""⟩, 0, none) :=
  ((enlist_validation_gate (σ := Nat) (W := Unit) true (fun _ => true) ⟨"sc", "fc"⟩
    (fun _ => none) (fun _ _ _ _ s => (some ((), "v1"), s + 1)) true
    [("warriorName", "Ada"), ("warriorEmail", "a@x.com"),
     ("warriorPassword1", "abcde"), ("warriorPassword2", "abcde")]
    none 0).2.1 (by decide)).1

/-- A JSON value as produced by `json.Unmarshal` into `map[string]interface` +
braces: only the shapes the handlers inspect are distinguished. -/
inductive JsonVal where
  | jstr : String → JsonVal
  | jbool : Bool → JsonVal
  | jnum : Int → JsonVal
  | jnull : JsonVal
deriving DecidableEq

/-- Observable outcome of a handler that performs unchecked Go type
assertions: `crash` is a runtime panic (the assertion failed), `resp` is a
normal HTTP response with status and optional serialized payload. -/
inductive HResult where
  | crash : HResult
  | resp : Nat → Option String → HResult
deriving DecidableEq

/-- Embeds `handleAPIKeyGenerate` (handlers.go lines 666-690).
`generateAPIKey` is `s.database.GenerateAPIKey` (the serialized key on
success). The unchecked assertion `keyVal["name"].(string)` runs first, before
the ownership comparison, and panics when the field is missing or not a
string; only then is `vars["id"]` compared against the context warrior ID. -/
def handleAPIKeyGenerate (generateAPIKey : String → String → Option String)
    (body : List (String × JsonVal)) (pathID ctxID : String) : HResult :=
  match body.lookup "name" with
  | some (JsonVal.jstr apiKeyName) =>
    if pathID != ctxID then HResult.resp 401 none
    else
      match generateAPIKey pathID apiKeyName with
      | some apiKey => HResult.resp 200 (some apiKey)
      | none => HResult.resp 500 none
  | _ => HResult.crash

/-- Embeds `handleWarriorAPIKeys` (handlers.go lines 693-713): list the keys
owned by the path warrior after the ownership check; `getAPIKeys` is
`s.database.GetWarriorAPIKeys` (serialized metadata on success). -/
def handleWarriorAPIKeys (getAPIKeys : String → Option String)
    (pathID ctxID : String) : HResult :=
  if pathID != ctxID then HResult.resp 401 none
  else
    match getAPIKeys pathID with
    | some keys => HResult.resp 200 (some keys)
    | none => HResult.resp 500 none

/-- Embeds `handleWarriorAPIKeyUpdate` (handlers.go lines 716-741): the
ownership check runs first; only then is the body read and the unchecked
assertion `keyVal["active"].(bool)` performed, then the store update. -/
def handleWarriorAPIKeyUpdate (updateAPIKey : String → String → Bool → Option String)
    (body : List (String × JsonVal)) (pathID keyID ctxID : String) : HResult :=
  if pathID != ctxID then HResult.resp 401 none
  else
    match body.lookup "active" with
    | some (JsonVal.jbool active) =>
      match updateAPIKey pathID keyID active with
      | some keys => HResult.resp 200 (some keys)
      | none => HResult.resp 500 none
    | _ => HResult.crash

/-- Embeds `handleWarriorAPIKeyDelete` (handlers.go lines 744-765): ownership
check, then the store delete. -/
def handleWarriorAPIKeyDelete (deleteAPIKey : String → String → Option String)
    (pathID keyID ctxID : String) : HResult :=
  if pathID != ctxID then HResult.resp 401 none
  else
    match deleteAPIKey pathID keyID with
    | some keys => HResult.resp 200 (some keys)
    | none => HResult.resp 500 none

/-- C8 counterexample: for the generate operation with a body lacking a string
"name" field and a caller that is not the owner, the handler panics on the
unchecked type assertion (which runs before the ownership check) instead of
failing with 401, so the claim as stated is false. -/
theorem apikey_ownership_counterexample :
    "owner" ≠ "caller" ∧
    handleAPIKeyGenerate (fun _ _ => some "k") [] "owner" "caller" = HResult.crash ∧
    HResult.crash ≠ HResult.resp 401 none := by
  exact ⟨by decide, rfl, by decide⟩

/-- C8 (amended): for list, update and delete always, and for generate
whenever the body carries a string "name" field, a caller that differs from
the path owner is rejected with 401 and the store operation is never consulted
(the outcome is independent of it); the store is reached only when the two IDs
are equal. -/
theorem apikey_ownership_gate (g : String → String → Option String)
    (u : String → String → Bool → Option String) (d : String → String → Option String)
    (l : String → Option String) (body ubody : List (String × JsonVal))
    (pathID keyID ctxID apiKeyName : String)
    (hname : body.lookup "name" = some (JsonVal.jstr apiKeyName))
    (hne : pathID ≠ ctxID) :
    handleAPIKeyGenerate g body pathID ctxID = HResult.resp 401 none ∧
    handleWarriorAPIKeys l pathID ctxID = HResult.resp 401 none ∧
    handleWarriorAPIKeyUpdate u ubody pathID keyID ctxID = HResult.resp 401 none ∧
    handleWarriorAPIKeyDelete d pathID keyID ctxID = HResult.resp 401 none ∧
    (∀ g2 : String → String → Option String,
      handleAPIKeyGenerate g body pathID ctxID = handleAPIKeyGenerate g2 body pathID ctxID) ∧
    (∀ l2 : String → Option String,
      handleWarriorAPIKeys l pathID ctxID = handleWarriorAPIKeys l2 pathID ctxID) ∧
    (∀ u2 : String → String → Bool → Option String,
      handleWarriorAPIKeyUpdate u ubody pathID keyID ctxID =
        handleWarriorAPIKeyUpdate u2 ubody pathID keyID ctxID) ∧
    (∀ d2 : String → String → Option String,
      handleWarriorAPIKeyDelete d pathID keyID ctxID =
        handleWarriorAPIKeyDelete d2 pathID keyID ctxID) := by
  have hb : (pathID != ctxID) = true := by simpa [bne_iff_ne] using hne
  have hgen : ∀ g2 : String → String → Option String,
      handleAPIKeyGenerate g2 body pathID ctxID = HResult.resp 401 none := by
    intro g2
    simp [handleAPIKeyGenerate, hname, hb]
  have hlist : ∀ l2 : String → Option String,
      handleWarriorAPIKeys l2 pathID ctxID = HResult.resp 401 none := by
    intro l2
    simp [handleWarriorAPIKeys, hb]
  have hupd : ∀ u2 : String → String → Bool → Option String,
      handleWarriorAPIKeyUpdate u2 ubody pathID keyID ctxID = HResult.resp 401 none := by
    intro u2
    simp [handleWarriorAPIKeyUpdate, hb]
  have hdel : ∀ d2 : String → String → Option String,
      handleWarriorAPIKeyDelete d2 pathID keyID ctxID = HResult.resp 401 none := by
    intro d2
    simp [handleWarriorAPIKeyDelete, hb]
  exact ⟨hgen g, hlist l, hupd u, hdel d,
    fun g2 => by rw [hgen g, hgen g2],
    fun l2 => by rw [hlist l, hlist l2],
    fun u2 => by rw [hupd u, hupd u2],
    fun d2 => by rw [hdel d, hdel d2]⟩

/-- C8 witness: with a well-formed generate body, a mismatched caller gets 401
from all four API-key operations. -/
theorem apikey_ownership_gate_witness :
    handleAPIKeyGenerate (fun _ _ => some "k") [("name", JsonVal.jstr "my key")]
      "owner" "caller" = HResult.resp 401 none ∧
    handleWarriorAPIKeys (fun _ => some "m") "owner" "caller" = HResult.resp 401 none ∧
    handleWarriorAPIKeyUpdate (fun _ _ _ => some "m") [] "owner" "k1" "caller" =
      HResult.resp 401 none ∧
    handleWarriorAPIKeyDelete (fun _ _ => some "m") "owner" "k1" "caller" =
      HResult.resp 401 none := by
  obtain ⟨h1, h2, h3, h4, _⟩ := apikey_ownership_gate (fun _ _ => some "k")
    (fun _ _ _ => some "m") (fun _ _ => some "m") (fun _ => some "m")
    [("name", JsonVal.jstr "my key")] [] "owner" "k1" "caller" "my key"
    (by decide) (by decide)
  exact ⟨h1, h2, h3, h4⟩

/-- Embeds `handleWarriorProfileUpdate` (handlers.go lines 560-593).
The unchecked assertions `keyVal["warriorName"].(string)` and
`keyVal["warriorAvatar"].(string)` run first and panic when the field is
missing or not a string; the comma-ok assertion on `notificationsEnabled`
defaults to `false`; only then is the path ID compared against the context
warrior ID, after which the store update and re-fetch run. -/
def handleWarriorProfileUpdate {W : Type}
    (updateWarriorProfile : String → String → String → Bool → Option Unit)
    (getWarrior : String → Option W)
    (body : List (String × JsonVal)) (pathID ctxID : String) : HResult :=
  match body.lookup "warriorName" with
  | some (JsonVal.jstr warriorName) =>
    match body.lookup "warriorAvatar" with
    | some (JsonVal.jstr warriorAvatar) =>
      let notificationsEnabled :=
        match body.lookup "notificationsEnabled" with
        | some (JsonVal.jbool b) => b
        | _ => false
      if pathID != ctxID then HResult.resp 401 none
      else
        match updateWarriorProfile pathID warriorName warriorAvatar notificationsEnabled with
        | some _ =>
          match getWarrior pathID with
          | some _ => HResult.resp 200 (some "warrior")
          | none => HResult.resp 500 none
        | none => HResult.resp 500 none
    | _ => HResult.crash
  | _ => HResult.crash

/-- C10: a well-formed authenticated profile-update request whose JSON body
lacks a string "warriorName" (empty body) or a string "warriorAvatar" (body
with only a name) makes the handler panic rather than answer 400, and since
the assertion precedes the ownership comparison this happens even when the
caller is not the profile owner. -/
theorem profile_update_assertion_crash :
    handleWarriorProfileUpdate (W := Unit) (fun _ _ _ _ => some ()) (fun _ => some ())
      [] "owner" "caller" = HResult.crash ∧
    handleWarriorProfileUpdate (W := Unit) (fun _ _ _ _ => some ()) (fun _ => some ())
      [("warriorName", JsonVal.jstr "Ada")] "owner" "caller" = HResult.crash ∧
    "owner" ≠ "caller" ∧
    HResult.crash ≠ HResult.resp 400 none ∧
    HResult.crash ≠ HResult.resp 401 none := by
  exact ⟨rfl, rfl, by decide, by decide, by decide⟩

/-- Ambient effects a handler could observe but `handleWarriorAvatar` never
reads: the current time and a source of true randomness. -/
structure Ambient where
  timeNow : Nat
  randomSeed : Nat
deriving DecidableEq

/-- Gender hint for the portrait provider (`govatar.MALE` / `govatar.FEMALE`). -/
inductive Gender where
  | male : Gender
  | female : Gender
deriving DecidableEq

/-- Route variables of the avatar endpoint: requested width, warrior ID, and
the optional gender hint segment. -/
structure AvatarVars where
  width : Nat
  id : String
  avatar : Option String
deriving DecidableEq

/-- Result of the avatar handler: `fatal` models `log.Fatalln` on an
undecodable provider image, `failure` a non-image error response, `image` the
PNG bytes with content type and length headers. -/
inductive AvatarResult where
  | fatal : AvatarResult
  | failure : Nat → AvatarResult
  | image : List Nat → String → Nat → AvatarResult
deriving DecidableEq

/-- Embeds `handleWarriorAvatar` (handlers.go lines 616-659). The render
collaborators are pure functions (spec section 6): `govatarGenerate` is
`govatar.GenerateForUsername` (its error return is discarded by the source),
`adorableDecode` is `image.Decode` composed with `adorable.PseudoRandom`,
`resize` is `transform.Resize` to a square of the requested width, and
`pngEncode` is `png.Encode`. The handler takes the ambient environment but the
source never consults time or randomness, so the result cannot depend on it. -/
def handleWarriorAvatar {Img : Type} (avatarService : String)
    (govatarGenerate : Gender → String → Img)
    (adorableDecode : String → Option Img)
    (resize : Img → Nat → Nat → Img)
    (pngEncode : Img → Option (List Nat))
    (amb : Ambient) (vars : AvatarVars) : AvatarResult :=
  let avatarGender : Gender :=
    match vars.avatar with
    | some g => if g == "female" then Gender.female else Gender.male
    | none => Gender.male
  let avatarOpt : Option Img :=
    if avatarService == "govatar" then some (govatarGenerate avatarGender vars.id)
    else adorableDecode vars.id
  match avatarOpt with
  | none => AvatarResult.fatal
  | some avatar =>
    match pngEncode (resize avatar vars.width vars.width) with
    | none => AvatarResult.failure 500
    | some buffer => AvatarResult.image buffer "image/png" buffer.length

/-- C9: avatar rendering is a pure deterministic function of the member ID,
gender hint, configured provider and width: the outcome is identical across
any two ambient environments (no time-based or true-random component), so two
calls with identical inputs yield byte-identical PNG output. -/
theorem avatar_render_deterministic {Img : Type} (avatarService : String)
    (govatarGenerate : Gender → String → Img) (adorableDecode : String → Option Img)
    (resize : Img → Nat → Nat → Img) (pngEncode : Img → Option (List Nat))
    (amb1 amb2 : Ambient) (vars : AvatarVars) :
    handleWarriorAvatar avatarService govatarGenerate adorableDecode resize
      pngEncode amb1 vars =
    handleWarriorAvatar avatarService govatarGenerate adorableDecode resize
      pngEncode amb2 vars := rfl
